import Mathlib

/-!
Shallow embedding of the credential and session-token subsystem of the
`zia-backend` repository (`app/config.py`, `app/services/auth.py`,
`app/routers/auth.py`).

Modelling conventions:
* Time is `Nat` seconds since the epoch; `timedelta(minutes=m)` is `60*m`
  seconds and `timedelta(days=d)` is `86400*d` seconds.
* The bcrypt library is external to the repository; it is modelled at its
  documented interface: a digest embeds the salt used, `hashpw` truncates the
  UTF-8 bytes of the password to 72 bytes and rejects passwords containing a
  NUL byte (`ValueError`), `checkpw` recomputes with the salt embedded in the
  digest and compares.  The key-derivation core is an explicit parameter
  `kdf`, so every theorem holds for an arbitrary derivation function.
* JWTs (the `jose` library, also external) are modelled symbolically: a token
  is either unparsable garbage or a claim set signed with a secret and an
  algorithm; `decode` checks the secret and algorithm and then the `exp`
  claim against the current time.
* Python `uuid.UUID` values are modelled as `Nat`; the conversions
  `str(uuid)` / `UUID(s)` are explicit parameters `uuidStr` / `uuidParse`
  (Python guarantees `UUID(str(u)) == u` and raises `ValueError` on a
  non-canonical string, `TypeError` on `None`).
* Each HTTP handler returns an `Outcome`: a successful value, an
  `HTTPException` (status code and detail string), or `crash` for an
  unhandled Python exception (which the app-level handler in `app/main.py`
  turns into a 500 response).
-/

namespace Zia

/-- Application settings with their defaults, from `app/config.py`
(fields irrelevant to the token subsystem are omitted). -/
structure Settings where
  jwt_secret : String := "dev-secret-change-in-production"
  jwt_algorithm : String := "HS256"
  access_token_expire_minutes : Nat := 30
  refresh_token_expire_days : Nat := 30
deriving Repr, DecidableEq

/-- The process-wide `settings = Settings()` instance (all defaults). -/
def settings : Settings := {}

/-! ## Python string primitives

Modelled over the character list of a `String` so that every definition is
kernel-computable on concrete inputs. -/

/-- `str.lower()` (character-wise lowercasing; the emails and passwords this
system handles are ASCII, where `Char.toLower` agrees with Python). -/
def pyLower (s : String) : String := String.mk (s.data.map Char.toLower)

/-- `str.strip()`: remove leading and trailing whitespace. -/
def pyStrip (s : String) : String :=
  String.mk ((s.data.dropWhile Char.isWhitespace).reverse.dropWhile
    Char.isWhitespace).reverse

/-- UTF-8 encoding of one character (RFC 3629), as in `str.encode("utf-8")`. -/
def utf8Char (c : Char) : List UInt8 :=
  let n := c.toNat
  if n < 0x80 then [UInt8.ofNat n]
  else if n < 0x800 then
    [UInt8.ofNat (0xC0 ||| (n >>> 6)), UInt8.ofNat (0x80 ||| (n &&& 0x3F))]
  else if n < 0x10000 then
    [UInt8.ofNat (0xE0 ||| (n >>> 12)), UInt8.ofNat (0x80 ||| ((n >>> 6) &&& 0x3F)),
     UInt8.ofNat (0x80 ||| (n &&& 0x3F))]
  else
    [UInt8.ofNat (0xF0 ||| (n >>> 18)), UInt8.ofNat (0x80 ||| ((n >>> 12) &&& 0x3F)),
     UInt8.ofNat (0x80 ||| ((n >>> 6) &&& 0x3F)), UInt8.ofNat (0x80 ||| (n &&& 0x3F))]

/-- `str.encode("utf-8")`. -/
def pyEncodeUtf8 (s : String) : List UInt8 := s.data.flatMap utf8Char

/-! ## Credential hasher (bcrypt model) -/

/-- A bcrypt digest, modelled by its parsed components: the salt that is
embedded in the digest string and the derived checksum. -/
structure BcryptDigest where
  salt : Nat
  checksum : Nat
deriving Repr, DecidableEq

/-- `password.encode("utf-8")`. -/
def passwordBytes (p : String) : List UInt8 := pyEncodeUtf8 p

/-- bcrypt only consumes the first 72 bytes of the password. -/
def bcryptTruncate (bs : List UInt8) : List UInt8 := bs.take 72

/-- The bcrypt library rejects passwords containing a NUL byte. -/
def hasNulByte (p : String) : Bool := (passwordBytes p).contains 0

/-- `bcrypt.hashpw(password, salt)`, parameterized by the key-derivation core
`kdf`.  `none` models the `ValueError` raised for a NUL-containing password. -/
def bcryptHashpw (kdf : List UInt8 → Nat → Nat) (password : String)
    (salt : Nat) : Option BcryptDigest :=
  if hasNulByte password then none
  else some ⟨salt, kdf (bcryptTruncate (passwordBytes password)) salt⟩

/-- `bcrypt.checkpw(password, digest)`: recompute with the salt embedded in
the digest and compare.  `none` models the `ValueError` for NUL bytes. -/
def bcryptCheckpw (kdf : List UInt8 → Nat → Nat) (password : String)
    (d : BcryptDigest) : Option Bool :=
  if hasNulByte password then none
  else some (kdf (bcryptTruncate (passwordBytes password)) d.salt == d.checksum)

/-- `hash_password` from `app/services/auth.py`; the fresh random salt drawn
by `bcrypt.gensalt()` is an explicit parameter. -/
def hash_password (kdf : List UInt8 → Nat → Nat) (salt : Nat)
    (password : String) : Option BcryptDigest :=
  bcryptHashpw kdf password salt

/-- `verify_password` from `app/services/auth.py`. -/
def verify_password (kdf : List UInt8 → Nat → Nat) (plain : String)
    (hashed : BcryptDigest) : Option Bool :=
  bcryptCheckpw kdf plain hashed

/-! ## Token codec (jose JWT model) -/

/-- The claim sets occurring in this system, as a record of optional claims
(`none` = the claim is absent from the payload, matching `payload.get(k)`
returning `None`). -/
structure Claims where
  sub : Option String := none
  email : Option String := none
  name : Option String := none
  exp : Option Nat := none
  type : Option String := none
deriving Repr, DecidableEq

/-- A serialized token: either an unparsable string or a claim set signed
with a secret under an algorithm. -/
inductive JWT
  | garbage (s : String)
  | signed (claims : Claims) (secret : String) (alg : String)
deriving Repr, DecidableEq

/-- The distinguishable failure kinds of `jose.jwt.decode`; both derive from
`JWTError` and callers catch them uniformly. -/
inductive JWTErr
  | invalidToken
  | expired
deriving Repr, DecidableEq

/-- `jose.jwt.encode(payload, secret, algorithm)`. -/
def jwt_encode (payload : Claims) (secret : String) (alg : String) : JWT :=
  .signed payload secret alg

/-- `jose.jwt.decode(token, secret, algorithms)`: verify signature and
algorithm, then reject if the `exp` claim (when present) is in the past. -/
def jwt_decode (now : Nat) (tok : JWT) (secret : String)
    (algs : List String) : Except JWTErr Claims :=
  match tok with
  | .garbage _ => .error .invalidToken
  | .signed c s a =>
    if s == secret && algs.contains a then
      match c.exp with
      | some e => if e < now then .error .expired else .ok c
      | none => .ok c
    else .error .invalidToken

/-- `decode_token` from `app/services/auth.py`. -/
def decode_token (cfg : Settings) (now : Nat) (tok : JWT) :
    Except JWTErr Claims :=
  jwt_decode now tok cfg.jwt_secret [cfg.jwt_algorithm]

/-- `create_access_token(user_id, email, name)` from `app/services/auth.py`.
`name.getD ""` is Python's `name or ""` (for `name : str | None` the two
agree: `None` and `""` both yield `""`). -/
def create_access_token (cfg : Settings) (now : Nat) (user_id : String)
    (email : String) (name : Option String) : JWT :=
  jwt_encode
    { sub := some user_id
      email := some email
      name := some (name.getD "")
      exp := some (now + 60 * cfg.access_token_expire_minutes)
      type := some "access" }
    cfg.jwt_secret cfg.jwt_algorithm

/-- `create_refresh_token(user_id)` from `app/services/auth.py`. -/
def create_refresh_token (cfg : Settings) (now : Nat) (user_id : String) : JWT :=
  jwt_encode
    { sub := some user_id
      exp := some (now + 86400 * cfg.refresh_token_expire_days)
      type := some "refresh" }
    cfg.jwt_secret cfg.jwt_algorithm

/-! ## Account directory -/

/-- A user record (`app/models/user.py` is storage plumbing outside the core;
the record shape is fixed by the spec's data model and by the fields the
service reads).  `id` models the UUID primary key. -/
structure User where
  id : Nat
  email : String
  password_hash : BcryptDigest
  name : Option String
deriving Repr, DecidableEq

/-- The directory state: the stored user rows. -/
abbrev Directory : Type := List User

/-- `get_user_by_email` from `app/services/auth.py`: exact match on the
stored `email` column. -/
def get_user_by_email (db : Directory) (email : String) : Option User :=
  db.find? (fun u => u.email == email)

/-- `get_user_by_id` from `app/services/auth.py`. -/
def get_user_by_id (db : Directory) (uid : Nat) : Option User :=
  db.find? (fun u => u.id == uid)

/-- Modelled from the spec: the storage schema `app/models/user.py` is not in
`src/`; per the spec the directory insert "must enforce email uniqueness
atomically" "via a uniqueness constraint at the storage layer", so inserting
a row whose email equals a stored row's email fails (`none`, the
`IntegrityError` raised at flush) and stores nothing. -/
def directory_insert (db : Directory) (u : User) : Option Directory :=
  if (db.find? (fun v => v.email == u.email)).isSome then none
  else some (db ++ [u])

/-- `create_user` from `app/services/auth.py`: the stored email is the
request email lowercased and stripped; the password is hashed.  The fresh
UUID and bcrypt salt are explicit parameters.  `.error` models an exception
propagating out: the `ValueError` from `hash_password`, or the
`IntegrityError` when the `flush` violates the storage-layer email
uniqueness constraint. -/
def create_user (kdf : List UInt8 → Nat → Nat) (newId salt : Nat)
    (db : Directory) (email password : String) (name : Option String) :
    Except String (User × Directory) :=
  match hash_password kdf salt password with
  | none => .error "ValueError"
  | some d =>
    let u : User :=
      { id := newId, email := pyStrip (pyLower email), password_hash := d
        name := name }
    match directory_insert db u with
    | none => .error "IntegrityError"
    | some db2 => .ok (u, db2)

/-! ## HTTP-layer outcomes -/

/-- The result of a request handler: a value, a raised `HTTPException`
(status code and detail), or an unhandled Python exception (`crash`), which
the global handler in `app/main.py` maps to a 500 response. -/
inductive Outcome (α : Type)
  | ok (a : α)
  | httpError (status : Nat) (detail : String)
  | crash (msg : String)
deriving Repr, DecidableEq

/-- True when the outcome is a success. -/
def Outcome.isOk {α : Type} : Outcome α → Bool
  | .ok _ => true
  | _ => false

/-- True when the outcome is a success or a 401 Unauthorized failure. -/
def Outcome.okOr401 {α : Type} : Outcome α → Bool
  | .ok _ => true
  | .httpError 401 _ => true
  | _ => false

/-- `TokenResponse` from `app/schemas/auth.py`. -/
structure TokenResponse where
  access_token : JWT
  refresh_token : JWT
  token_type : String := "bearer"
deriving Repr, DecidableEq

/-! ## Authentication service (route handlers in `app/routers/auth.py`) -/

/-- `register` from `app/routers/auth.py`.  Returns the handler outcome and
the directory state after the request (unchanged on failure: either nothing
was inserted, or `get_db` rolls the session back on the raised exception). -/
def register (kdf : List UInt8 → Nat → Nat) (uuidStr : Nat → String)
    (cfg : Settings) (now newId salt : Nat) (db : Directory)
    (email password : String) (name : Option String) :
    Outcome TokenResponse × Directory :=
  match get_user_by_email db email with
  | some _ => (.httpError 409 "Email already registered", db)
  | none =>
    if password.length < 6 then
      (.httpError 400 "Password must be at least 6 characters", db)
    else
      match create_user kdf newId salt db email password name with
      | .error e => (.crash e, db)
      | .ok (u, db2) =>
        (.ok { access_token := create_access_token cfg now (uuidStr u.id) u.email u.name
               refresh_token := create_refresh_token cfg now (uuidStr u.id) },
         db2)

/-- `login` from `app/routers/auth.py`.  `not user or not verify_password(..)`
short-circuits: the hash is only checked when the lookup succeeded. -/
def login (kdf : List UInt8 → Nat → Nat) (uuidStr : Nat → String)
    (cfg : Settings) (now : Nat) (db : Directory)
    (email password : String) : Outcome TokenResponse :=
  match get_user_by_email db email with
  | none => .httpError 401 "Invalid email or password"
  | some u =>
    match verify_password kdf password u.password_hash with
    | none => .crash "ValueError"
    | some false => .httpError 401 "Invalid email or password"
    | some true =>
      .ok { access_token := create_access_token cfg now (uuidStr u.id) u.email u.name
            refresh_token := create_refresh_token cfg now (uuidStr u.id) }

/-- `get_current_user` from `app/routers/auth.py` (ResolveCurrentUser).
The `except JWTError` block covers only the decode; the two inner
`HTTPException`s propagate.  `UUID(user_id)` runs outside the `try`: on a
`sub` that is not a canonical UUID string it raises `ValueError`, uncaught. -/
def get_current_user (uuidParse : String → Option Nat)
    (cfg : Settings) (now : Nat) (db : Directory) (tok : JWT) :
    Outcome User :=
  match decode_token cfg now tok with
  | .error _ => .httpError 401 "Invalid or expired token"
  | .ok payload =>
    if payload.type ≠ some "access" then
      .httpError 401 "Invalid token type"
    else
      match payload.sub with
      | none => .httpError 401 "Invalid token"
      | some s =>
        match uuidParse s with
        | none => .crash "ValueError"
        | some uid =>
          match get_user_by_id db uid with
          | none => .httpError 401 "User not found"
          | some u => .ok u

/-- `refresh` from `app/routers/auth.py`.  Unlike `get_current_user` there is
no `None` check on `payload.get("sub")`: `UUID(None)` raises `TypeError`
(uncaught), and `UUID` of a non-canonical string raises `ValueError`. -/
def refresh (uuidStr : Nat → String) (uuidParse : String → Option Nat)
    (cfg : Settings) (now : Nat) (db : Directory) (tok : JWT) :
    Outcome TokenResponse :=
  match decode_token cfg now tok with
  | .error _ => .httpError 401 "Invalid or expired refresh token"
  | .ok payload =>
    if payload.type ≠ some "refresh" then
      .httpError 401 "Invalid token type"
    else
      match payload.sub with
      | none => .crash "TypeError"
      | some s =>
        match uuidParse s with
        | none => .crash "ValueError"
        | some uid =>
          match get_user_by_id db uid with
          | none => .httpError 401 "User not found"
          | some u =>
            .ok { access_token := create_access_token cfg now (uuidStr u.id) u.email u.name
                  refresh_token := create_refresh_token cfg now (uuidStr u.id) }

/-! ## Concrete instances for witnesses and counterexamples -/

/-- A concrete key-derivation core used to instantiate the bcrypt model. -/
def kdf0 : List UInt8 → Nat → Nat :=
  fun bs salt => bs.foldl (fun a b => a * 256 + b.toNat) (salt + 1)

/-- A concrete `str(uuid)` conversion on the UUID values used in witnesses. -/
def uuidStr0 : Nat → String := fun n => if n = 7 then "7" else "?"

/-- A concrete `UUID(s)` parse matching `uuidStr0`: round-trips canonical
strings and fails (`ValueError`) on anything else. -/
def uuidParse0 : String → Option Nat := fun s => if s = "7" then some 7 else none

/-- The digest `hash_password kdf0 0 "secret1"` produces. -/
def d0 : BcryptDigest := ⟨0, kdf0 (bcryptTruncate (passwordBytes "secret1")) 0⟩

/-- A stored user row: normalized email, password `"secret1"`, no name. -/
def u0 : User := { id := 7, email := "a@x.com", password_hash := d0, name := none }

/-! ## Claims -/

/-- Claim C6: password hashing round-trip — for every password accepted by the
hasher, every salt and every key-derivation core, verifying the password
against its own hash returns true. -/
theorem verify_password_roundtrip (kdf : List UInt8 → Nat → Nat)
    (salt : Nat) (p : String) (d : BcryptDigest)
    (h : hash_password kdf salt p = some d) :
    verify_password kdf p d = some true := by
  unfold hash_password bcryptHashpw at h
  by_cases hn : hasNulByte p
  · simp [hn] at h
  · simp [hn] at h
    unfold verify_password bcryptCheckpw
    simp [hn, ← h]

/-- Witness for C6 at password `"secret1"`, salt `0`, core `kdf0`. -/
theorem verify_password_roundtrip_witness :
    hash_password kdf0 0 "secret1" = some d0
    ∧ verify_password kdf0 "secret1" d0 = some true :=
  ⟨by decide, verify_password_roundtrip kdf0 0 "secret1" d0 (by decide)⟩

/-- Claim C5: the `InvalidCredentials` failure for a nonexistent email and for
an existing email with a wrong password is one and the same value (identical
status and detail), so the two cases are indistinguishable to the caller. -/
theorem invalid_credentials_indistinguishable
    (kdf : List UInt8 → Nat → Nat) (uuidStr : Nat → String)
    (cfg cfg2 : Settings) (now now2 : Nat) (db db2 : Directory)
    (e1 p1 e2 p2 : String) (u : User)
    (h1 : get_user_by_email db e1 = none)
    (h2 : get_user_by_email db2 e2 = some u)
    (h3 : verify_password kdf p2 u.password_hash = some false) :
    login kdf uuidStr cfg now db e1 p1 = login kdf uuidStr cfg2 now2 db2 e2 p2
    ∧ login kdf uuidStr cfg now db e1 p1
        = .httpError 401 "Invalid email or password" := by
  simp [login, h1, h2, h3]

/-- Witness for C5: unknown email `b@x.com` versus stored `a@x.com` with the
wrong password. -/
theorem invalid_credentials_indistinguishable_witness :
    login kdf0 uuidStr0 settings 0 [] "b@x.com" "pw"
      = login kdf0 uuidStr0 settings 5 [u0] "a@x.com" "wrong"
    ∧ login kdf0 uuidStr0 settings 0 [] "b@x.com" "pw"
      = .httpError 401 "Invalid email or password" :=
  invalid_credentials_indistinguishable kdf0 uuidStr0 settings settings 0 5
    [] [u0] "b@x.com" "pw" "a@x.com" "wrong" u0 (by decide) (by decide) (by decide)

/-- Claim C4: token type exclusivity — whenever a token decodes to a claim set
whose `type` is not `access`, `get_current_user` rejects it with 401
`Invalid token type` (so every refresh token is rejected there), and whenever
the `type` is not `refresh`, `refresh` rejects it the same way (so every
access token is rejected there). -/
theorem token_type_exclusivity (uuidStr : Nat → String)
    (uuidParse : String → Option Nat) (cfg : Settings) (now : Nat)
    (db : Directory) (tok : JWT) (c : Claims)
    (hdec : decode_token cfg now tok = .ok c) :
    (c.type ≠ some "access" →
      get_current_user uuidParse cfg now db tok
        = .httpError 401 "Invalid token type")
    ∧ (c.type ≠ some "refresh" →
      refresh uuidStr uuidParse cfg now db tok
        = .httpError 401 "Invalid token type") := by
  constructor <;> intro h
  · unfold get_current_user
    rw [hdec]
    simp [h]
  · unfold refresh
    rw [hdec]
    simp [h]

/-- Witness for C4 at a decodable token of type `bogus` (neither `access` nor
`refresh`): both operations reject it. -/
theorem token_type_exclusivity_witness :
    get_current_user uuidParse0 settings 0 []
      (JWT.signed { type := some "bogus", exp := some 100 }
        settings.jwt_secret settings.jwt_algorithm)
      = .httpError 401 "Invalid token type"
    ∧ refresh uuidStr0 uuidParse0 settings 0 []
      (JWT.signed { type := some "bogus", exp := some 100 }
        settings.jwt_secret settings.jwt_algorithm)
      = .httpError 401 "Invalid token type" :=
  ⟨(token_type_exclusivity uuidStr0 uuidParse0 settings 0 []
      (JWT.signed { type := some "bogus", exp := some 100 }
        settings.jwt_secret settings.jwt_algorithm)
      { type := some "bogus", exp := some 100 } (by rfl)).1 (by decide),
   (token_type_exclusivity uuidStr0 uuidParse0 settings 0 []
      (JWT.signed { type := some "bogus", exp := some 100 }
        settings.jwt_secret settings.jwt_algorithm)
      { type := some "bogus", exp := some 100 } (by rfl)).2 (by decide)⟩

/-- Claim C10: a token that decodes with `type = access` but carries no `sub`
claim makes `get_current_user` fail with 401 `Invalid token`, for every
directory state (so without crashing and without consulting the directory). -/
theorem missing_sub_rejected (uuidParse : String → Option Nat)
    (cfg : Settings) (now : Nat) (db : Directory) (tok : JWT) (c : Claims)
    (hdec : decode_token cfg now tok = .ok c)
    (htype : c.type = some "access") (hsub : c.sub = none) :
    get_current_user uuidParse cfg now db tok = .httpError 401 "Invalid token" := by
  unfold get_current_user
  rw [hdec]
  simp [htype, hsub]

/-- Witness for C10 at a signed access-type token with no `sub` claim. -/
theorem missing_sub_rejected_witness :
    get_current_user uuidParse0 settings 0 []
      (JWT.signed { type := some "access", exp := some 100 }
        settings.jwt_secret settings.jwt_algorithm)
      = .httpError 401 "Invalid token" :=
  missing_sub_rejected uuidParse0 settings 0 []
    (JWT.signed { type := some "access", exp := some 100 }
      settings.jwt_secret settings.jwt_algorithm)
    { type := some "access", exp := some 100 } (by rfl) rfl rfl

/-- Claim C7: on a valid, unexpired access token, `get_current_user` returns
exactly the user record currently stored in the directory for the token's
subject (the live record, not the token's snapshot), and fails with 401
`User not found` when no record for the subject exists (e.g. after the
account was deleted). -/
theorem resolve_current_user_live (uuidParse : String → Option Nat)
    (cfg : Settings) (now now0 : Nat) (db : Directory) (uid : Nat)
    (sub em : String) (nm : Option String)
    (hround : uuidParse sub = some uid)
    (hfresh : now ≤ now0 + 60 * cfg.access_token_expire_minutes) :
    get_current_user uuidParse cfg now db (create_access_token cfg now0 sub em nm)
      = match get_user_by_id db uid with
        | some u => .ok u
        | none => .httpError 401 "User not found" := by
  unfold get_current_user decode_token jwt_decode create_access_token jwt_encode
  simp [hround, Nat.not_lt.mpr hfresh]
  cases get_user_by_id db uid <;> rfl

/-- Witness for C7: the subject's live record (`u0`, whose `name` differs from
the token's snapshot) is returned. -/
theorem resolve_current_user_live_witness :
    get_current_user uuidParse0 settings 5 [u0]
      (create_access_token settings 0 "7" "a@x.com" (some "Old Name")) = .ok u0 :=
  (resolve_current_user_live uuidParse0 settings 5 0 [u0] 7 "7" "a@x.com"
    (some "Old Name") (by decide) (by decide)).trans (by decide)

/-- Claim C9: when no stored account matches the request email (under the
invariant that stored emails are normalized), `register` fails with the 400
`WeakPassword` error exactly when the password has fewer than 6 characters;
no other strength rule exists. -/
theorem weak_password_iff (kdf : List UInt8 → Nat → Nat)
    (uuidStr : Nat → String) (cfg : Settings) (now newId salt : Nat)
    (db : Directory) (email password : String) (name : Option String)
    (hnorm : ∀ u ∈ db, u.email = pyStrip (pyLower u.email))
    (hfree : ∀ u ∈ db, u.email ≠ pyStrip (pyLower email)) :
    (register kdf uuidStr cfg now newId salt db email password name).1
      = .httpError 400 "Password must be at least 6 characters"
    ↔ password.length < 6 := by
  have hnone : get_user_by_email db email = none := by
    cases hfind : get_user_by_email db email with
    | none => rfl
    | some u =>
      have hmem : u ∈ db := List.mem_of_find?_eq_some hfind
      have heq : u.email = email := by
        have := List.find?_some hfind
        simpa using this
      have h1 := hnorm u hmem
      have h2 := hfree u hmem
      rw [heq] at h1
      rw [heq] at h2
      exact absurd h1 h2
  unfold register
  rw [hnone]
  by_cases hlen : password.length < 6
  · simp [hlen]
  · simp only [if_neg hlen]
    constructor
    · intro h
      cases hcreate : create_user kdf newId salt db email password name with
      | error e => rw [hcreate] at h; simp at h
      | ok p => rw [hcreate] at h; cases p; simp at h
    · intro h
      exact absurd h hlen

/-- Witness for C9 on an empty directory: a 5-character password is rejected
as weak. -/
theorem weak_password_iff_witness :
    (register kdf0 uuidStr0 settings 0 9 0 [] "a@x.com" "short" none).1
      = .httpError 400 "Password must be at least 6 characters" :=
  (weak_password_iff kdf0 uuidStr0 settings 0 9 0 [] "a@x.com" "short" none
    (by simp) (by simp)).mpr (by decide)

/-- Counterexample to claim C3 as stated: a token signed with the server
secret, of type `refresh` but carrying no `sub` claim, makes `refresh` raise
an uncaught `TypeError` from `UUID(None)` (surfaced as a 500 by the handler
in `app/main.py`) — neither a fresh token pair nor an Unauthorized failure. -/
theorem refresh_missing_sub_cex :
    refresh uuidStr0 uuidParse0 settings 0 []
      (JWT.signed { type := some "refresh", exp := some 100 }
        settings.jwt_secret settings.jwt_algorithm)
      = .crash "TypeError"
    ∧ Outcome.okOr401 (refresh uuidStr0 uuidParse0 settings 0 []
      (JWT.signed { type := some "refresh", exp := some 100 }
        settings.jwt_secret settings.jwt_algorithm)) = false :=
  ⟨by decide, by decide⟩

/-- Claim C3 as amended: `refresh` either returns a freshly issued token pair
or fails with 401 Unauthorized, for every token that — when it decodes
successfully with type `refresh` — carries a `sub` claim parsing as a UUID
(as every server-issued refresh token does); a decoded refresh-type token
without such a `sub` instead raises an unhandled error. -/
theorem refresh_closed_errors (uuidStr : Nat → String)
    (uuidParse : String → Option Nat) (cfg : Settings) (now : Nat)
    (db : Directory) (tok : JWT)
    (hsub : ∀ c, decode_token cfg now tok = .ok c → c.type = some "refresh" →
      ∃ s uid, c.sub = some s ∧ uuidParse s = some uid) :
    (refresh uuidStr uuidParse cfg now db tok).okOr401 = true := by
  unfold refresh
  cases hdec : decode_token cfg now tok with
  | error e => rfl
  | ok c =>
    by_cases ht : c.type = some "refresh"
    · obtain ⟨s, uid, hs, hp⟩ := hsub c hdec ht
      simp only [ht, hs, hp]
      simp only [ne_eq, not_true_eq_false, if_false]
      cases get_user_by_id db uid <;> rfl
    · simp only [ne_eq, ht, not_false_eq_true, if_true]
      rfl

/-- Witness for C3 at a server-issued refresh token for the stored user. -/
theorem refresh_closed_errors_witness :
    (refresh uuidStr0 uuidParse0 settings 0 [u0]
      (create_refresh_token settings 0 "7")).okOr401 = true :=
  refresh_closed_errors uuidStr0 uuidParse0 settings 0 [u0]
    (create_refresh_token settings 0 "7")
    (fun c hdec _ => by
      rw [show decode_token settings 0 (create_refresh_token settings 0 "7")
            = .ok { sub := some "7", exp := some 2592000, type := some "refresh" }
          from rfl] at hdec
      cases hdec
      exact ⟨"7", 7, rfl, by decide⟩)

/-- Claim C1 evaluated at its failing input: the stored user's email is the
normalization of the request email `A@x.com`, yet `register` does not fail
with the 409 `AccountExists` conflict — the duplicate check looks up the raw
request email and misses, so the insert runs and violates the storage
uniqueness constraint, the uncaught `IntegrityError` surfacing as a 500 —
and no new user is created. -/
theorem register_email_normalization_bug :
    pyStrip (pyLower "A@x.com") = u0.email
    ∧ (register kdf0 uuidStr0 settings 0 9 0 [u0] "A@x.com" "secret1" none).1
        = .crash "IntegrityError"
    ∧ (register kdf0 uuidStr0 settings 0 9 0 [u0] "A@x.com" "secret1" none).2 = [u0] :=
  ⟨by decide, by decide, by decide⟩

/-- Claim C2 evaluated at its failing input: with the correct password,
`login` rejects the email `A@x.com` (equal to the stored `a@x.com` up to
normalization) because the lookup uses the raw request email, while the
exact stored email succeeds. -/
theorem login_email_normalization_bug :
    pyStrip (pyLower "A@x.com") = u0.email
    ∧ login kdf0 uuidStr0 settings 0 [u0] "A@x.com" "secret1"
        = .httpError 401 "Invalid email or password"
    ∧ (login kdf0 uuidStr0 settings 0 [u0] "a@x.com" "secret1").isOk = true :=
  ⟨by decide, by decide, by decide⟩

/-- Counterexample to claim C8 as stated: the access token issued for a user
with no name does not carry the user's (absent) name — it carries a `name`
claim equal to the empty string (`name or ""`). -/
theorem access_token_name_claim_cex :
    create_access_token settings 0 "7" "a@x.com" none
      = JWT.signed { sub := some "7", email := some "a@x.com", name := some "",
                     exp := some 1800, type := some "access" }
          settings.jwt_secret settings.jwt_algorithm
    ∧ create_access_token settings 0 "7" "a@x.com" none
      ≠ JWT.signed { sub := some "7", email := some "a@x.com", name := none,
                     exp := some 1800, type := some "access" }
          settings.jwt_secret settings.jwt_algorithm :=
  ⟨by decide, by decide⟩

/-- Claim C8 as amended: an access token carries exactly the claims `sub`,
`email`, `name` (the user's name at issuance, a missing name encoded as the
empty string), `type = access` and `exp` = issuance instant plus the
configured access TTL in minutes; a refresh token carries exactly `sub`,
`type = refresh` and `exp` = issuance plus the configured refresh TTL in
days; the defaults are 30 minutes and 30 days. -/
theorem issued_token_claims (cfg : Settings) (now : Nat)
    (user_id email : String) (name : Option String) :
    create_access_token cfg now user_id email name
      = JWT.signed
          { sub := some user_id, email := some email,
            name := some (name.getD ""),
            exp := some (now + 60 * cfg.access_token_expire_minutes),
            type := some "access" } cfg.jwt_secret cfg.jwt_algorithm
    ∧ create_refresh_token cfg now user_id
      = JWT.signed
          { sub := some user_id,
            exp := some (now + 86400 * cfg.refresh_token_expire_days),
            type := some "refresh" } cfg.jwt_secret cfg.jwt_algorithm
    ∧ settings.access_token_expire_minutes = 30
    ∧ settings.refresh_token_expire_days = 30 :=
  ⟨rfl, rfl, rfl, rfl⟩

end Zia
